import Mathlib

/-
Verification development for the street-coverage tracker (src/main.py).

The program's own logic (configuration constants, segment splitting, activity
processing, completion logic, metadata export, GPX-directory loading, the
coverage-ratio routines) is embedded directly from the source.  The external
geometry library (shapely) that the source calls into is modelled abstractly
by a record of its operations, `GeoOps`; the concrete instance `iops` realises
those operations one-dimensionally (geometries are closed intervals on a line,
given as `some (lo, hi)` or `none` for the empty geometry).  The 1-D instance
agrees exactly with the planar library on the collinear configurations used in
all concrete inputs below (all points share latitude 0 and the geometry extent
is along the longitude axis): buffering widens an interval by the radius,
intersection clips intervals, a touching point counts as a non-empty
intersection of length 0, exactly as in the planar library restricted to a
line.  Lengths, coordinates and ratios are exact rationals standing for the
source's floats; every arithmetic operation performed is exact in the inputs
used, so no rounding discrepancy arises.

Python behaviour that the source relies on is modelled explicitly:
float division raises ZeroDivisionError on a zero divisor, so the ratio
routines return an `Except` value; `int()` on the positive quotients arising
here is the floor; `np.linspace 0 L (n+1)` yields the points i*L/n.
-/

/-! ### Configuration (class CoverageConfig, src/main.py lines 16-40)

The constants are written in lower case, matching the instance attributes
`self.min_segment_length` etc. that `StravaStreetCoverageTracker.__init__`
copies them into (lines 102-105).  Units follow the source: lengths in
meters, coordinates in degrees, with the source's rough conversion factor
111000 m/degree. -/

def min_gps_accuracy : ℚ := 1000

def min_segment_length : ℚ := 100

def max_segment_length : ℚ := 100

def min_coverage_ratio : ℚ := 1 / 10

def min_coverage_threshold : ℚ := 1 / 100

def excluded_highway_types : List String := ["motorway", "motorway_link"]

/-- BUFFER_DISTANCE (meters); `process_activities` and the ratio routines use
CoverageConfig.BUFFER_DISTANCE = 20 directly. -/
def buffer_distance : ℚ := 20

/-! ### GPS points (dataclass GPSPoint, lines 42-52) -/

structure GPSPoint where
  lat : ℚ
  lon : ℚ
  timestamp : Option ℚ := none
  accuracy : Option ℚ := none
deriving DecidableEq

/-- Property GPSPoint.coords (lines 50-52): returns (lon, lat). -/
def GPSPoint.coords (p : GPSPoint) : ℚ × ℚ := (p.lon, p.lat)

/-! ### The geometry backend interface

Operations of the external geometry library used by the embedded code.
`line_string` builds a line from a coordinate list, `buffer` expands a
geometry by a radius, `intersects` and `intersection` are the usual
predicates, `length` is geometric length and `is_empty` the emptiness test. -/

structure GeoOps (G : Type) where
  line_string : List (ℚ × ℚ) → G
  buffer : G → ℚ → G
  intersects : G → G → Bool
  intersection : G → G → G
  length : G → ℚ
  is_empty : G → Bool

/-! ### Street segments (class StreetSegment, lines 54-79)

The `original_street` constructor argument (an external pandas row that no
claim and no embedded operation reads) is omitted. -/

structure StreetSegment (G : Type) where
  segment_id : ℕ
  geometry : G
  street_id : ℕ
  length : ℚ
  activities_covering : List String := []
  coverage_ratios : List ℚ := []
deriving DecidableEq

/-- Property StreetSegment.is_completed (lines 68-71):
`len(self.activities_covering) > 0`. -/
def StreetSegment.is_completed {G : Type} (s : StreetSegment G) : Bool :=
  decide (0 < s.activities_covering.length)

/-- Values appearing in the completion_metadata dict. -/
inductive MetaVal where
  | num (n : ℕ)
  | flag (b : Bool)
deriving DecidableEq

/-- Property StreetSegment.completion_metadata (lines 73-79): the dict literal
with keys segment_id, is_completed, activity_count, in source order. -/
def StreetSegment.completion_metadata {G : Type} (s : StreetSegment G) :
    List (String × MetaVal) :=
  [("segment_id", MetaVal.num s.segment_id),
   ("is_completed", MetaVal.flag s.is_completed),
   ("activity_count", MetaVal.num s.activities_covering.length)]

/-! ### Activities (the dicts appended in load_gpx_directory, lines 350-354) -/

structure Activity where
  filename : String
  points : List (ℚ × ℚ)
  gps_points : List GPSPoint
deriving DecidableEq

/-! ### process_activities (lines 386-436)

The per-segment body of the inner loop (lines 413-422) and the per-activity
body of the outer loop (lines 398-422).  `self.street_segment_objects` is
modelled as the list of its values; `self.covered_segments` (line 422) only
mirrors `is_completed` and is not modelled separately; the printed progress
and statistics lines have no state effect. -/

def update_segment {G : Type} (ops : GeoOps G) (buffered_activity : G)
    (filename : String) (street_segment : StreetSegment G) : StreetSegment G :=
  if ops.intersects buffered_activity street_segment.geometry then
    if filename ∉ street_segment.activities_covering then
      { street_segment with
        activities_covering := street_segment.activities_covering ++ [filename] }
    else street_segment
  else street_segment

def process_one_activity {G : Type} (ops : GeoOps G)
    (segs : List (StreetSegment G)) (activity : Activity) :
    List (StreetSegment G) :=
  if activity.gps_points.length < 2 then segs
  else
    let activity_line := ops.line_string (activity.gps_points.map GPSPoint.coords)
    let buffered_activity := ops.buffer activity_line (buffer_distance / 111000)
    segs.map (update_segment ops buffered_activity activity.filename)

def process_activities {G : Type} (ops : GeoOps G)
    (segs : List (StreetSegment G)) (activities : List Activity) :
    List (StreetSegment G) :=
  activities.foldl (process_one_activity ops) segs

/-! ### The coverage-ratio routines (lines 362-384 and 438-467)

Python float division raises ZeroDivisionError when the divisor is zero, so
the results live in `Except String ℚ`. -/

/-- Method _calculate_coverage_ratio_with_line (lines 447-467). -/
def calculate_coverage_ratio_with_line {G : Type} (ops : GeoOps G)
    (activity_line : G) (street_segment : StreetSegment G) : Except String ℚ :=
  let buffered_activity := ops.buffer activity_line (buffer_distance / 111000)
  if !(ops.intersects buffered_activity street_segment.geometry) then Except.ok 0
  else
    let inter := ops.intersection buffered_activity street_segment.geometry
    if ops.is_empty inter then Except.ok 0
    else
      let intersection_length := ops.length inter
      let street_length := ops.length street_segment.geometry
      if street_length = 0 then Except.error "ZeroDivisionError"
      else Except.ok (intersection_length / street_length)

/-- Method _calculate_coverage_ratio (lines 362-384): same computation on the
unbuffered activity line built from the point list. -/
def calculate_coverage_ratio {G : Type} (ops : GeoOps G)
    (activity_points : List GPSPoint) (street_segment : StreetSegment G) :
    Except String ℚ :=
  if activity_points.length < 2 then Except.ok 0
  else
    let activity_line := ops.line_string (activity_points.map GPSPoint.coords)
    if !(ops.intersects activity_line street_segment.geometry) then Except.ok 0
    else
      let inter := ops.intersection activity_line street_segment.geometry
      if ops.is_empty inter then Except.ok 0
      else
        let intersection_length := ops.length inter
        let street_length := ops.length street_segment.geometry
        if street_length = 0 then Except.error "ZeroDivisionError"
        else Except.ok (intersection_length / street_length)

/-- Method _calculate_coverage_ratio_wrapper_with_line (lines 438-445): catches
any exception from the ratio computation and reports ratio 0. -/
def calculate_coverage_ratio_wrapper_with_line {G : Type} (ops : GeoOps G)
    (activity_line : G) (street_segment : StreetSegment G) (filename : String) :
    ℕ × ℚ × String :=
  match calculate_coverage_ratio_with_line ops activity_line street_segment with
  | Except.ok coverage_ratio => (street_segment.segment_id, coverage_ratio, filename)
  | Except.error _ => (street_segment.segment_id, 0, filename)

/-! ### Spec-side notions for claim statements

These two definitions follow the specification's words, not the source: the
spec speaks of the "ratio" of an observation, while the source records only
the covering activity's filename.  They attach to each recorded observation
the ratio that the source's own ratio routine computes for the pair (with the
wrapper's convention of reporting 0 when the computation raises). -/

def spec_track_segment_ratio {G : Type} (ops : GeoOps G) (a : Activity)
    (s : StreetSegment G) : ℚ :=
  match calculate_coverage_ratio_with_line ops
      (ops.line_string (a.gps_points.map GPSPoint.coords)) s with
  | Except.ok r => r
  | Except.error _ => 0

def spec_observation_ratios {G : Type} (ops : GeoOps G) (acts : List Activity)
    (s : StreetSegment G) : List ℚ :=
  (acts.filter (fun a => a.filename ∈ s.activities_covering)).map
    (fun a => spec_track_segment_ratio ops a s)

/-! ### Statistics export (export_statistics, lines 589-616)

Only the coverage-ratio distribution (line 596) is state we can speak about;
the rest of the stats dict echoes configuration and counts. -/

/-- Python max over a non-empty list; the 0 for the empty list is never
reached by the guarded call site below. -/
def list_max : List ℚ → ℚ
  | [] => 0
  | h :: t => t.foldl max h

/-- The comprehension of line 596:
max(s.coverage_ratios) for each completed segment with a non-empty ratio list. -/
def coverage_ratio_distribution {G : Type} (segs : List (StreetSegment G)) :
    List ℚ :=
  (segs.filter (fun s => s.is_completed)).filterMap
    (fun s => if s.coverage_ratios ≠ [] then some (list_max s.coverage_ratios) else none)

/-! ### The 1-D instance of the geometry backend -/

def interval_line (pts : List (ℚ × ℚ)) : Option (ℚ × ℚ) :=
  match pts.map Prod.fst with
  | [] => none
  | x :: xs => some (xs.foldl min x, xs.foldl max x)

def interval_buffer : Option (ℚ × ℚ) → ℚ → Option (ℚ × ℚ)
  | none, _ => none
  | some (a, b), r => some (a - r, b + r)

def interval_intersection : Option (ℚ × ℚ) → Option (ℚ × ℚ) → Option (ℚ × ℚ)
  | some (a, b), some (c, d) =>
      if max a c ≤ min b d then some (max a c, min b d) else none
  | _, _ => none

def interval_intersects (g1 g2 : Option (ℚ × ℚ)) : Bool :=
  (interval_intersection g1 g2).isSome

def interval_length : Option (ℚ × ℚ) → ℚ
  | none => 0
  | some (a, b) => b - a

def interval_is_empty (g : Option (ℚ × ℚ)) : Bool := g.isNone

def iops : GeoOps (Option (ℚ × ℚ)) :=
  { line_string := interval_line
    buffer := interval_buffer
    intersects := interval_intersects
    intersection := interval_intersection
    length := interval_length
    is_empty := interval_is_empty }

/-- One meter in degrees, under the source's conversion factor. -/
def u : ℚ := 1 / 111000

/-! ### The segmenter (_split_streets_into_segments, lines 166-219, and
_filter_runnable_streets, lines 137-164)

A raw street row carries its id, its road class, its geometry (as the 1-D
interval it spans) and, for the splitting arithmetic, its arc length
`geom_len` (the source's `geom.length`, in degrees) together with the
arc-length parametrisation `pointAt` (the source's `geom.interpolate`): the
1-D position of the point at arc distance d from the street's start.  For a
straight street laid along the axis, `pointAt` is the identity and the chord
length between two interpolated points is the absolute coordinate
difference, exactly as in the planar library. -/

structure RawStreet where
  street_id : ℕ
  highway : String
  geometry : Option (ℚ × ℚ)
  geom_len : ℚ
  pointAt : ℚ → ℚ

/-- One row of the `segments` list built by the loop (lines 190-207):
segment_id, street_id, geometry, and the stored `length` (in degrees, the
source stores `segment_geom.length` resp. `geom.length` unconverted). -/
structure SegmentRec where
  segment_id : ℕ
  street_id : ℕ
  geometry : Option (ℚ × ℚ)
  length : ℚ
deriving DecidableEq

/-- Filter of lines 149-151: drop rows whose highway class is excluded. -/
def filter_runnable_streets (streets : List RawStreet) : List RawStreet :=
  streets.filter (fun street => street.highway ∉ excluded_highway_types)

/-- Consecutive pairs, the loop `for i in range(len(points) - 1)` over
`(points[i], points[i+1])` (lines 185-186). -/
def consecPairs {α : Type} : List α → List (α × α)
  | a :: b :: rest => (a, b) :: consecPairs (b :: rest)
  | _ => []

/-- The emitting loop of lines 185-197: for each consecutive point pair, the
chord is kept only when its length in meters reaches min_len; `segment_id`
(threaded as the second component) advances only on emission, as in the
source. -/
def emit_pieces (min_len : ℚ) (street_id : ℕ) :
    ℕ → List (ℚ × ℚ) → List SegmentRec × ℕ
  | sid, [] => ([], sid)
  | sid, pq :: rest =>
    let seg_len_deg := |pq.2 - pq.1|
    if seg_len_deg * 111000 ≥ min_len then
      let r := emit_pieces min_len street_id (sid + 1) rest
      ({ segment_id := sid, street_id := street_id,
         geometry := some (min pq.1 pq.2, max pq.1 pq.2),
         length := seg_len_deg } :: r.1, r.2)
    else emit_pieces min_len street_id sid rest

/-- The loop body of lines 171-207 for one street, given the incoming
segment_id counter; returns the emitted rows and the updated counter.
`int()` on the positive quotient `street_length / max_len` is the floor;
`np.linspace 0 geom_len (n+1)` is the list of the i * geom_len / n. -/
def split_street (min_len max_len : ℚ) (sid : ℕ) (street : RawStreet) :
    List SegmentRec × ℕ :=
  let street_length := street.geom_len * 111000
  if street_length > max_len then
    let num_segments := max 2 (⌊street_length / max_len⌋.toNat)
    let distances := (List.range (num_segments + 1)).map
      (fun i : ℕ => (i : ℚ) * street.geom_len / (num_segments : ℚ))
    let points := distances.map street.pointAt
    emit_pieces min_len street.street_id sid (consecPairs points)
  else
    ([{ segment_id := sid, street_id := street.street_id,
        geometry := street.geometry, length := street.geom_len }], sid + 1)

/-- One iteration of the street loop: append the rows emitted for this street
and carry the advanced segment_id counter. -/
def split_fold_step (min_len max_len : ℚ) (acc : List SegmentRec × ℕ)
    (street : RawStreet) : List SegmentRec × ℕ :=
  (acc.1 ++ (split_street min_len max_len acc.2 street).1,
   (split_street min_len max_len acc.2 street).2)

/-- Method _split_streets_into_segments (lines 166-209): fold the per-street
loop body over the street rows, threading the segment_id counter from 0. -/
def split_streets_into_segments (min_len max_len : ℚ)
    (streets : List RawStreet) : List SegmentRec :=
  (streets.foldl (split_fold_step min_len max_len) ([], 0)).1

/-- Lines 211-219: one StreetSegment object per emitted row, with fresh empty
tracking lists (StreetSegment.__init__, lines 64-66). -/
def mk_street_segment_objects (recs : List SegmentRec) :
    List (StreetSegment (Option (ℚ × ℚ))) :=
  recs.map (fun r =>
    { segment_id := r.segment_id, geometry := r.geometry,
      street_id := r.street_id, length := r.length,
      activities_covering := [], coverage_ratios := [] })

/-! ### The GPX directory loader (load_gpx_directory, lines 291-360)

The directory walk, the `.gpx` extension test and the activity-type filter
(lines 324-331) consult the filesystem and happen before the guarded block;
we model the sequence of candidate files that reach the `try` of line 334.
`parse` is the outcome of `load_gpx_file` (lines 284-289): the quality-kept
point list, or the exception the parse raised.  The per-file error print of
line 357 is modelled by recording the failing filename in `errors`. -/

structure GpxFile where
  filename : String
  parse : Except String (List GPSPoint)

structure CityBounds where
  min_lat : ℚ
  max_lat : ℚ
  min_lon : ℚ
  max_lon : ℚ

/-- The bounds test of lines 344-345. -/
def point_in_bounds (b : CityBounds) (p : GPSPoint) : Bool :=
  decide (b.min_lat ≤ p.lat) && decide (p.lat ≤ b.max_lat) &&
  decide (b.min_lon ≤ p.lon) && decide (p.lon ≤ b.max_lon)

structure LoadState where
  activities : List Activity
  errors : List String
  total_activities : ℕ
  local_activities : ℕ

/-- The per-file body of lines 333-357. -/
def load_gpx_one (city_bounds : Option CityBounds) (st : LoadState)
    (f : GpxFile) : LoadState :=
  match f.parse with
  | Except.error _ => { st with errors := st.errors ++ [f.filename] }
  | Except.ok points =>
    if 2 ≤ points.length then
      let is_local :=
        match city_bounds with
        | none => true
        | some b => points.any (point_in_bounds b)
      if is_local then
        { st with
          total_activities := st.total_activities + 1,
          activities := st.activities ++
            [{ filename := f.filename, points := points.map GPSPoint.coords,
               gps_points := points }],
          local_activities := st.local_activities + 1 }
      else { st with total_activities := st.total_activities + 1 }
    else st

/-- The file loop of lines 324-357 over the candidate files. -/
def load_gpx_directory (city_bounds : Option CityBounds)
    (files : List GpxFile) (st : LoadState) : LoadState :=
  files.foldl (load_gpx_one city_bounds) st

/-! ### Concrete inputs for counterexamples and witnesses

All point sets are collinear along the longitude axis at latitude 0, where
the 1-D geometry instance agrees with the planar library. -/

/-- A 100 m straight street segment along the axis from longitude 0. -/
def c1_seg : StreetSegment (Option (ℚ × ℚ)) :=
  { segment_id := 0, geometry := some (0, 100 * u), street_id := 0,
    length := 100 * u }

/-- A track ending 15 m short of c1_seg: its 20 m buffer reaches 5 m into the
segment, so the buffered track intersects while the computed coverage ratio
is 5/100 = 1/20 < MIN_COVERAGE_RATIO. -/
def c1_act : Activity :=
  { filename := "short_graze_run.gpx",
    points := [(-50 * u, 0), (-15 * u, 0)],
    gps_points := [{ lat := 0, lon := -50 * u }, { lat := 0, lon := -15 * u }] }

def c2_seg : StreetSegment (Option (ℚ × ℚ)) :=
  { segment_id := 3, geometry := some (0, 100 * u), street_id := 1,
    length := 100 * u }

/-- A track whose 20 m buffer reaches only 0.5 m into c2_seg: the pair is
recorded although its ratio 1/200 is below MIN_COVERAGE_THRESHOLD = 1/100. -/
def c2_act : Activity :=
  { filename := "negligible_graze.gpx",
    points := [(-50 * u, 0), ((-39 / 2) * u, 0)],
    gps_points := [{ lat := 0, lon := -50 * u },
                   { lat := 0, lon := (-39 / 2) * u }] }

/-- A degenerate zero-length street segment sitting at longitude 10 m. -/
def c3_zeroseg : StreetSegment (Option (ℚ × ℚ)) :=
  { segment_id := 7, geometry := some (10 * u, 10 * u), street_id := 2,
    length := 0 }

/-- A 50 m track passing over the degenerate segment. -/
def c3_points : List GPSPoint :=
  [{ lat := 0, lon := 0 }, { lat := 0, lon := 50 * u }]

/-- A street segment of positive length for the C3 witness. -/
def c3_posseg : StreetSegment (Option (ℚ × ℚ)) :=
  { segment_id := 8, geometry := some (0, 100 * u), street_id := 2,
    length := 100 * u }

/-- A straight 250 m street: longer than MAX_SEGMENT_LENGTH, split into
max(2, int(250/100)) = 2 pieces of 125 m, each exceeding MAX. -/
def c4_street : RawStreet :=
  { street_id := 0, highway := "residential", geometry := some (0, 250 * u),
    geom_len := 250 * u, pointAt := fun d => d }

/-- The first of the two 125 m pieces emitted for c4_street. -/
def c4_piece : SegmentRec :=
  { segment_id := 0, street_id := 0, geometry := some (0, 125 * u),
    length := 125 * u }

/-- A straight 150 m street: split into max(2, int(1.5)) = 2 pieces of 75 m,
both below MIN_SEGMENT_LENGTH and hence dropped. -/
def c5_street : RawStreet :=
  { street_id := 0, highway := "residential", geometry := some (0, 150 * u),
    geom_len := 150 * u, pointAt := fun d => d }

/-- A generic segment for witnesses: 100 m starting at longitude 0. -/
def ex_seg : StreetSegment (Option (ℚ × ℚ)) :=
  { segment_id := 0, geometry := some (0, 100 * u), street_id := 0,
    length := 100 * u }

/-- A track running along ex_seg. -/
def ex_act : Activity :=
  { filename := "full_run.gpx",
    points := [(0, 0), (100 * u, 0)],
    gps_points := [{ lat := 0, lon := 0 }, { lat := 0, lon := 100 * u }] }

/-- A one-point track, inert by the length guard. -/
def ex_act_short : Activity :=
  { filename := "one_point.gpx",
    points := [(0, 0)],
    gps_points := [{ lat := 0, lon := 0 }] }

/-- An emitted segment row for the C10 witness. -/
def ex_rec : SegmentRec :=
  { segment_id := 0, street_id := 0, geometry := some (0, 100 * u),
    length := 100 * u }

def ex_good1 : GpxFile :=
  { filename := "morning_run.gpx",
    parse := Except.ok [{ lat := 0, lon := 0 }, { lat := 0, lon := 100 * u }] }

def ex_bad : GpxFile :=
  { filename := "corrupt.gpx", parse := Except.error "malformed XML" }

def ex_good2 : GpxFile :=
  { filename := "evening_run.gpx",
    parse := Except.ok [{ lat := 0, lon := 50 * u }, { lat := 0, lon := 150 * u }] }

def ex_init_state : LoadState :=
  { activities := [], errors := [], total_activities := 0, local_activities := 0 }

/-! ## Helper lemmas about the coverage matcher -/

theorem is_completed_iff {G : Type} (s : StreetSegment G) :
    s.is_completed = true ↔ s.activities_covering ≠ [] := by
  simp [StreetSegment.is_completed, List.length_pos]

theorem process_one_short {G : Type} (ops : GeoOps G)
    (segs : List (StreetSegment G)) (a : Activity)
    (h : a.gps_points.length < 2) :
    process_one_activity ops segs a = segs := by
  unfold process_one_activity
  rw [if_pos h]

theorem update_segment_geometry {G : Type} (ops : GeoOps G) (b : G)
    (fn : String) (s : StreetSegment G) :
    (update_segment ops b fn s).geometry = s.geometry := by
  unfold update_segment
  split
  · split <;> rfl
  · rfl

theorem update_segment_ratios {G : Type} (ops : GeoOps G) (b : G)
    (fn : String) (s : StreetSegment G) :
    (update_segment ops b fn s).coverage_ratios = s.coverage_ratios := by
  unfold update_segment
  split
  · split <;> rfl
  · rfl

theorem update_segment_grows {G : Type} (ops : GeoOps G) (b : G)
    (fn : String) (s : StreetSegment G) :
    s.activities_covering <+: (update_segment ops b fn s).activities_covering := by
  unfold update_segment
  split
  · split
    · exact List.prefix_append _ _
    · exact List.prefix_rfl
  · exact List.prefix_rfl

theorem update_segment_mem {G : Type} (ops : GeoOps G) (b : G)
    (fn f : String) (s : StreetSegment G) :
    (f ∈ (update_segment ops b fn s).activities_covering ↔
      f ∈ s.activities_covering ∨
        (f = fn ∧ ops.intersects b s.geometry = true)) := by
  unfold update_segment
  by_cases hint : ops.intersects b s.geometry = true
  · rw [if_pos hint]
    by_cases hmem : fn ∈ s.activities_covering
    · rw [if_neg (by simp [hmem])]
      constructor
      · exact Or.inl
      · rintro (h | ⟨rfl, -⟩)
        · exact h
        · exact hmem
    · rw [if_pos (by simp [hmem])]
      simp [hint]
  · rw [if_neg hint]
    simp [hint]

theorem process_one_length {G : Type} (ops : GeoOps G)
    (segs : List (StreetSegment G)) (a : Activity) :
    (process_one_activity ops segs a).length = segs.length := by
  unfold process_one_activity
  split
  · rfl
  · simp

theorem process_length {G : Type} (ops : GeoOps G)
    (segs : List (StreetSegment G)) (acts : List Activity) :
    (process_activities ops segs acts).length = segs.length := by
  induction acts generalizing segs with
  | nil => rfl
  | cons a acts ih =>
    show (process_activities ops (process_one_activity ops segs a) acts).length = _
    rw [ih, process_one_length]

theorem process_one_getElem {G : Type} (ops : GeoOps G)
    (segs : List (StreetSegment G)) (a : Activity) (i : ℕ)
    (h : i < segs.length) (h' : i < (process_one_activity ops segs a).length) :
    (process_one_activity ops segs a)[i] =
      if a.gps_points.length < 2 then segs[i]
      else update_segment ops
        (ops.buffer (ops.line_string (a.gps_points.map GPSPoint.coords))
          (buffer_distance / 111000)) a.filename segs[i] := by
  by_cases hl : a.gps_points.length < 2
  · simp [process_one_activity, hl]
  · simp [process_one_activity, hl]

theorem process_one_getElem_geometry {G : Type} (ops : GeoOps G)
    (segs : List (StreetSegment G)) (a : Activity) (i : ℕ)
    (h : i < segs.length) (h' : i < (process_one_activity ops segs a).length) :
    ((process_one_activity ops segs a)[i]).geometry = (segs[i]).geometry := by
  rw [process_one_getElem ops segs a i h h']
  split
  · rfl
  · exact update_segment_geometry ..

theorem process_one_getElem_ratios {G : Type} (ops : GeoOps G)
    (segs : List (StreetSegment G)) (a : Activity) (i : ℕ)
    (h : i < segs.length) (h' : i < (process_one_activity ops segs a).length) :
    ((process_one_activity ops segs a)[i]).coverage_ratios =
      (segs[i]).coverage_ratios := by
  rw [process_one_getElem ops segs a i h h']
  split
  · rfl
  · exact update_segment_ratios ..

theorem process_one_getElem_grows {G : Type} (ops : GeoOps G)
    (segs : List (StreetSegment G)) (a : Activity) (i : ℕ)
    (h : i < segs.length) (h' : i < (process_one_activity ops segs a).length) :
    (segs[i]).activities_covering <+:
      ((process_one_activity ops segs a)[i]).activities_covering := by
  rw [process_one_getElem ops segs a i h h']
  split
  · exact List.prefix_rfl
  · exact update_segment_grows ..

theorem process_one_getElem_mem {G : Type} (ops : GeoOps G)
    (segs : List (StreetSegment G)) (a : Activity) (f : String) (i : ℕ)
    (h : i < segs.length) (h' : i < (process_one_activity ops segs a).length) :
    (f ∈ ((process_one_activity ops segs a)[i]).activities_covering ↔
      f ∈ (segs[i]).activities_covering ∨
        (2 ≤ a.gps_points.length ∧ f = a.filename ∧
          ops.intersects
            (ops.buffer (ops.line_string (a.gps_points.map GPSPoint.coords))
              (buffer_distance / 111000)) ((segs[i]).geometry) = true)) := by
  rw [process_one_getElem ops segs a i h h']
  by_cases hl : a.gps_points.length < 2
  · rw [if_pos hl]
    have h2 : ¬ (2 ≤ a.gps_points.length) := by omega
    simp [h2]
  · rw [if_neg hl]
    rw [update_segment_mem]
    have h2 : 2 ≤ a.gps_points.length := by omega
    simp [h2]

theorem process_getElem_geometry {G : Type} (ops : GeoOps G)
    (segs : List (StreetSegment G)) (acts : List Activity) (i : ℕ)
    (h : i < segs.length) (h' : i < (process_activities ops segs acts).length) :
    ((process_activities ops segs acts)[i]).geometry = (segs[i]).geometry := by
  induction acts generalizing segs with
  | nil => rfl
  | cons a acts ih =>
    have h1 : i < (process_one_activity ops segs a).length := by
      rw [process_one_length]; exact h
    have h2 : i < (process_activities ops (process_one_activity ops segs a) acts).length := h'
    calc ((process_activities ops segs (a :: acts))[i]).geometry
        = ((process_activities ops (process_one_activity ops segs a) acts)[i]).geometry := rfl
      _ = (((process_one_activity ops segs a))[i]).geometry := ih _ h1 h2
      _ = ((segs[i])).geometry := process_one_getElem_geometry ops segs a i h h1

theorem process_getElem_ratios {G : Type} (ops : GeoOps G)
    (segs : List (StreetSegment G)) (acts : List Activity) (i : ℕ)
    (h : i < segs.length) (h' : i < (process_activities ops segs acts).length) :
    ((process_activities ops segs acts)[i]).coverage_ratios =
      (segs[i]).coverage_ratios := by
  induction acts generalizing segs with
  | nil => rfl
  | cons a acts ih =>
    have h1 : i < (process_one_activity ops segs a).length := by
      rw [process_one_length]; exact h
    have h2 : i < (process_activities ops (process_one_activity ops segs a) acts).length := h'
    calc ((process_activities ops segs (a :: acts))[i]).coverage_ratios
        = ((process_activities ops (process_one_activity ops segs a) acts)[i]).coverage_ratios := rfl
      _ = (((process_one_activity ops segs a))[i]).coverage_ratios := ih _ h1 h2
      _ = ((segs[i])).coverage_ratios := process_one_getElem_ratios ops segs a i h h1

theorem process_getElem_grows {G : Type} (ops : GeoOps G)
    (segs : List (StreetSegment G)) (acts : List Activity) (i : ℕ)
    (h : i < segs.length) (h' : i < (process_activities ops segs acts).length) :
    (segs[i]).activities_covering <+:
      ((process_activities ops segs acts)[i]).activities_covering := by
  induction acts generalizing segs with
  | nil => exact List.prefix_rfl
  | cons a acts ih =>
    have h1 : i < (process_one_activity ops segs a).length := by
      rw [process_one_length]; exact h
    have h2 : i < (process_activities ops (process_one_activity ops segs a) acts).length := h'
    exact (process_one_getElem_grows ops segs a i h h1).trans (ih _ h1 h2)

theorem process_getElem_mem {G : Type} (ops : GeoOps G)
    (segs : List (StreetSegment G)) (acts : List Activity) (f : String) (i : ℕ)
    (h : i < segs.length) (h' : i < (process_activities ops segs acts).length) :
    (f ∈ ((process_activities ops segs acts)[i]).activities_covering ↔
      f ∈ (segs[i]).activities_covering ∨
        ∃ a ∈ acts, 2 ≤ a.gps_points.length ∧ f = a.filename ∧
          ops.intersects
            (ops.buffer (ops.line_string (a.gps_points.map GPSPoint.coords))
              (buffer_distance / 111000)) ((segs[i]).geometry) = true) := by
  induction acts generalizing segs with
  | nil => simp [process_activities]
  | cons a acts ih =>
    have h1 : i < (process_one_activity ops segs a).length := by
      rw [process_one_length]; exact h
    have h2 : i < (process_activities ops (process_one_activity ops segs a) acts).length := h'
    have step : (f ∈ ((process_activities ops segs (a :: acts))[i]).activities_covering ↔
        f ∈ ((process_one_activity ops segs a)[i]).activities_covering ∨
          ∃ a' ∈ acts, 2 ≤ a'.gps_points.length ∧ f = a'.filename ∧
            ops.intersects
              (ops.buffer (ops.line_string (a'.gps_points.map GPSPoint.coords))
                (buffer_distance / 111000))
              (((process_one_activity ops segs a)[i]).geometry) = true) :=
      ih _ h1 h2
    rw [process_one_getElem_geometry ops segs a i h h1] at step
    rw [step, process_one_getElem_mem ops segs a f i h h1]
    constructor
    · rintro ((hbase | hone) | ⟨a', ha', hrest⟩)
      · exact Or.inl hbase
      · exact Or.inr ⟨a, List.mem_cons_self a acts, hone⟩
      · exact Or.inr ⟨a', List.mem_cons_of_mem a ha', hrest⟩
    · rintro (hbase | ⟨a', ha', hrest⟩)
      · exact Or.inl (Or.inl hbase)
      · rcases List.mem_cons.mp ha' with rfl | ha'
        · exact Or.inl (Or.inr hrest)
        · exact Or.inr ⟨a', ha', hrest⟩

theorem process_mem_ratios {G : Type} (ops : GeoOps G)
    (segs : List (StreetSegment G)) (acts : List Activity) :
    ∀ s ∈ process_activities ops segs acts,
      ∃ t ∈ segs, s.coverage_ratios = t.coverage_ratios := by
  intro s hs
  rcases List.mem_iff_get.mp hs with ⟨n, hn⟩
  have hlen : (n : ℕ) < segs.length :=
    lt_of_lt_of_eq n.isLt (process_length ops segs acts)
  refine ⟨segs[(n : ℕ)], List.getElem_mem .., ?_⟩
  rw [← hn]
  rw [List.get_eq_getElem]
  exact process_getElem_ratios ops segs acts n hlen n.isLt

/-! ## Helper lemmas about the GPX directory loader -/

theorem load_gpx_one_error (cb : Option CityBounds) (st : LoadState)
    (f : GpxFile) (e : String) (he : f.parse = Except.error e) :
    load_gpx_one cb st f = { st with errors := st.errors ++ [f.filename] } := by
  unfold load_gpx_one
  rw [he]

theorem load_gpx_one_proj (cb : Option CityBounds) (st1 st2 : LoadState)
    (f : GpxFile) (ha : st1.activities = st2.activities)
    (ht : st1.total_activities = st2.total_activities)
    (hl : st1.local_activities = st2.local_activities) :
    (load_gpx_one cb st1 f).activities = (load_gpx_one cb st2 f).activities ∧
    (load_gpx_one cb st1 f).total_activities = (load_gpx_one cb st2 f).total_activities ∧
    (load_gpx_one cb st1 f).local_activities = (load_gpx_one cb st2 f).local_activities := by
  cases hp : f.parse with
  | error e =>
    rw [load_gpx_one_error cb st1 f e hp, load_gpx_one_error cb st2 f e hp]
    exact ⟨ha, ht, hl⟩
  | ok points =>
    simp only [load_gpx_one, hp]
    by_cases hlen : 2 ≤ points.length
    · by_cases hloc : (match cb with
        | none => true
        | some b => points.any (point_in_bounds b)) = true
      · simp only [if_pos hlen, if_pos hloc]
        exact ⟨by simp [ha], by simp [ht], by simp [hl]⟩
      · simp only [if_pos hlen, if_neg hloc]
        exact ⟨ha, by simp [ht], hl⟩
    · simp only [if_neg hlen]
      exact ⟨ha, ht, hl⟩

theorem load_gpx_directory_proj (cb : Option CityBounds) (files : List GpxFile) :
    ∀ st1 st2 : LoadState, st1.activities = st2.activities →
      st1.total_activities = st2.total_activities →
      st1.local_activities = st2.local_activities →
      (load_gpx_directory cb files st1).activities =
        (load_gpx_directory cb files st2).activities ∧
      (load_gpx_directory cb files st1).total_activities =
        (load_gpx_directory cb files st2).total_activities ∧
      (load_gpx_directory cb files st1).local_activities =
        (load_gpx_directory cb files st2).local_activities := by
  induction files with
  | nil => exact fun st1 st2 ha ht hl => ⟨ha, ht, hl⟩
  | cons f files ih =>
    intro st1 st2 ha ht hl
    have step := load_gpx_one_proj cb st1 st2 f ha ht hl
    exact ih (load_gpx_one cb st1 f) (load_gpx_one cb st2 f)
      step.1 step.2.1 step.2.2

theorem load_gpx_one_errors_grow (cb : Option CityBounds) (st : LoadState)
    (f : GpxFile) : st.errors <+: (load_gpx_one cb st f).errors := by
  cases hp : f.parse with
  | error e =>
    rw [load_gpx_one_error cb st f e hp]
    exact List.prefix_append _ _
  | ok points =>
    simp only [load_gpx_one, hp]
    by_cases hlen : 2 ≤ points.length
    · by_cases hloc : (match cb with
        | none => true
        | some b => points.any (point_in_bounds b)) = true
      · simp only [if_pos hlen, if_pos hloc]
        exact List.prefix_rfl
      · simp only [if_pos hlen, if_neg hloc]
        exact List.prefix_rfl
    · simp only [if_neg hlen]
      exact List.prefix_rfl

theorem load_gpx_directory_errors_grow (cb : Option CityBounds)
    (files : List GpxFile) :
    ∀ st : LoadState, st.errors <+: (load_gpx_directory cb files st).errors := by
  induction files with
  | nil => exact fun st => List.prefix_rfl
  | cons f files ih =>
    intro st
    exact (load_gpx_one_errors_grow cb st f).trans (ih (load_gpx_one cb st f))

/-! ## Helper lemmas about the segmenter -/

theorem emit_pieces_mem_length (min_len : ℚ) (street_id : ℕ) :
    ∀ (pairs : List (ℚ × ℚ)) (sid : ℕ),
      ∀ s ∈ (emit_pieces min_len street_id sid pairs).1,
        min_len ≤ s.length * 111000 := by
  intro pairs
  induction pairs with
  | nil =>
    intro sid s hs
    simp [emit_pieces] at hs
  | cons pq rest ih =>
    intro sid s hs
    by_cases hc : |pq.2 - pq.1| * 111000 ≥ min_len
    · simp only [emit_pieces, if_pos hc] at hs
      rcases List.mem_cons.mp hs with rfl | hs
      · exact hc
      · exact ih _ s hs
    · simp only [emit_pieces, if_neg hc] at hs
      exact ih _ s hs

theorem emit_pieces_all_pass (min_len : ℚ) (street_id : ℕ) :
    ∀ (pairs : List (ℚ × ℚ)) (sid : ℕ),
      (∀ pq ∈ pairs, |pq.2 - pq.1| * 111000 ≥ min_len) →
      (emit_pieces min_len street_id sid pairs).1.map (fun s => s.length) =
        pairs.map (fun pq => |pq.2 - pq.1|) := by
  intro pairs
  induction pairs with
  | nil => intro sid _; rfl
  | cons pq rest ih =>
    intro sid h
    have hc : |pq.2 - pq.1| * 111000 ≥ min_len := h pq (List.mem_cons_self _ _)
    simp only [emit_pieces, if_pos hc, List.map_cons]
    exact congrArg (List.cons _)
      (ih _ (fun x hx => h x (List.mem_cons_of_mem _ hx)))

theorem split_street_mem_length (min_len max_len : ℚ) (sid : ℕ)
    (street : RawStreet) :
    ∀ s ∈ (split_street min_len max_len sid street).1,
      min_len ≤ s.length * 111000 ∨ s.length * 111000 ≤ max_len := by
  intro s hs
  by_cases hb : street.geom_len * 111000 > max_len
  · simp only [split_street, if_pos hb] at hs
    exact Or.inl (emit_pieces_mem_length _ _ _ _ s hs)
  · simp only [split_street, if_neg hb] at hs
    rcases List.mem_singleton.mp hs with rfl
    exact Or.inr (le_of_not_lt hb)

theorem split_fold_mem (min_len max_len : ℚ) (streets : List RawStreet) :
    ∀ (acc : List SegmentRec × ℕ),
      ∀ s ∈ (streets.foldl (split_fold_step min_len max_len) acc).1,
        s ∈ acc.1 ∨ ∃ street ∈ streets, ∃ sid,
          s ∈ (split_street min_len max_len sid street).1 := by
  induction streets with
  | nil => exact fun acc s hs => Or.inl hs
  | cons street rest ih =>
    intro acc s hs
    have hstep : List.foldl (split_fold_step min_len max_len) acc (street :: rest) =
        List.foldl (split_fold_step min_len max_len)
          (split_fold_step min_len max_len acc street) rest := rfl
    rw [hstep] at hs
    rcases ih _ s hs with h | ⟨st, hst, sid, hsid⟩
    · rcases List.mem_append.mp h with h | h
      · exact Or.inl h
      · exact Or.inr ⟨street, List.mem_cons_self _ _, acc.2, h⟩
    · exact Or.inr ⟨st, List.mem_cons_of_mem _ hst, sid, hsid⟩

theorem consecPairs_map_range' (f : ℕ → ℚ) :
    ∀ (k s : ℕ), consecPairs ((List.range' s (k + 1)).map f) =
      (List.range' s k).map (fun i => (f i, f (i + 1))) := by
  intro k
  induction k with
  | zero => intro s; rfl
  | succ k ih =>
    intro s
    show (f s, f (s + 1)) ::
        consecPairs ((List.range' (s + 1) (k + 1)).map f) =
      (f s, f (s + 1)) :: (List.range' (s + 1) k).map (fun i => (f i, f (i + 1)))
    exact congrArg (List.cons _) (ih (s + 1))

theorem split_street_sum_straight (min_len max_len : ℚ) (sid : ℕ)
    (street : RawStreet)
    (hstraight : ∀ d, street.pointAt d = d)
    (hmax : 0 < max_len)
    (hlong : street.geom_len * 111000 > max_len)
    (hpiece : min_len ≤ street.geom_len * 111000 /
      ((max 2 (⌊street.geom_len * 111000 / max_len⌋.toNat) : ℕ) : ℚ)) :
    ((split_street min_len max_len sid street).1.map (fun s => s.length)).sum =
      street.geom_len := by
  have hg : 0 < street.geom_len := by nlinarith
  simp only [split_street, if_pos hlong]
  set n : ℕ := max 2 (⌊street.geom_len * 111000 / max_len⌋.toNat) with hn
  have hn2 : 2 ≤ n := le_max_left _ _
  have hnpos : 0 < n := lt_of_lt_of_le (by norm_num) hn2
  have hnq : (0 : ℚ) < (n : ℚ) := by exact_mod_cast hnpos
  have hq0 : 0 ≤ street.geom_len / (n : ℚ) := le_of_lt (div_pos hg hnq)
  have habs : ∀ i : ℕ, |((i + 1 : ℕ) : ℚ) * street.geom_len / (n : ℚ) -
      (i : ℚ) * street.geom_len / (n : ℚ)| = street.geom_len / (n : ℚ) := by
    intro i
    have hdiff : ((i + 1 : ℕ) : ℚ) * street.geom_len / (n : ℚ) -
        (i : ℚ) * street.geom_len / (n : ℚ) = street.geom_len / (n : ℚ) := by
      push_cast
      ring
    rw [hdiff]
    exact abs_of_nonneg hq0
  rw [List.map_map]
  rw [show (List.range (n + 1)).map
        (street.pointAt ∘ fun i : ℕ => (i : ℚ) * street.geom_len / (n : ℚ)) =
      (List.range (n + 1)).map (fun i : ℕ => (i : ℚ) * street.geom_len / (n : ℚ))
    from List.map_congr_left fun i _ => hstraight _]
  rw [List.range_eq_range']
  rw [consecPairs_map_range' (fun i : ℕ => (i : ℚ) * street.geom_len / (n : ℚ)) n 0]
  have hpass : ∀ pq ∈ (List.range' 0 n).map
      (fun i : ℕ => ((i : ℚ) * street.geom_len / (n : ℚ),
        ((i + 1 : ℕ) : ℚ) * street.geom_len / (n : ℚ))),
      |pq.2 - pq.1| * 111000 ≥ min_len := by
    intro pq hpq
    rcases List.mem_map.mp hpq with ⟨i, _, rfl⟩
    show |((i + 1 : ℕ) : ℚ) * street.geom_len / (n : ℚ) -
        (i : ℚ) * street.geom_len / (n : ℚ)| * 111000 ≥ min_len
    rw [habs i]
    calc min_len ≤ street.geom_len * 111000 / (n : ℚ) := hpiece
      _ = street.geom_len / (n : ℚ) * 111000 := by ring
  rw [emit_pieces_all_pass min_len street.street_id _ sid hpass]
  rw [List.map_map]
  rw [show (List.range' 0 n).map
        ((fun pq : ℚ × ℚ => |pq.2 - pq.1|) ∘
          fun i : ℕ => ((i : ℚ) * street.geom_len / (n : ℚ),
            ((i + 1 : ℕ) : ℚ) * street.geom_len / (n : ℚ))) =
      (List.range' 0 n).map (fun _ : ℕ => street.geom_len / (n : ℚ))
    from List.map_congr_left fun i _ => habs i]
  rw [List.map_const', List.length_range', List.sum_replicate, nsmul_eq_mul]
  field_simp

/-! ## Claim C1 -/

unseal Rat.mul Rat.inv Rat.add Rat.sub in
/-- Claim C1 as stated is false at a concrete input: processing the single
activity c1_act against the single segment c1_seg marks the segment Completed
although the only observation for it has ratio 1/20, below
MIN_COVERAGE_RATIO = 1/10, so "Completed iff an observation exists and the
maximum observed ratio reaches MIN_COVERAGE_RATIO" fails. -/
theorem c1_counterexample :
    ¬ (∀ s ∈ process_activities iops [c1_seg] [c1_act],
        (s.is_completed = true ↔
          (spec_observation_ratios iops [c1_act] s ≠ [] ∧
            min_coverage_ratio ≤
              list_max (spec_observation_ratios iops [c1_act] s)))) := by
  decide

/-- Claim C1, amended: after processing any set of activity tracks, a segment
is marked Completed if and only if it was already Completed or some processed
track with at least 2 GPS points has a buffered line intersecting the
segment's geometry; the observations' ratios and MIN_COVERAGE_RATIO play no
role in the completion decision. -/
theorem c1_theorem {G : Type} (ops : GeoOps G) (segs : List (StreetSegment G))
    (acts : List Activity) (i : ℕ) (h1 : i < segs.length)
    (h2 : i < (process_activities ops segs acts).length) :
    (((process_activities ops segs acts)[i]).is_completed = true ↔
      ((segs[i]).is_completed = true ∨
        ∃ a ∈ acts, 2 ≤ a.gps_points.length ∧
          ops.intersects
            (ops.buffer (ops.line_string (a.gps_points.map GPSPoint.coords))
              (buffer_distance / 111000)) ((segs[i]).geometry) = true)) := by
  rw [is_completed_iff, is_completed_iff]
  constructor
  · intro hne
    rcases List.exists_mem_of_ne_nil _ hne with ⟨f, hf⟩
    rcases (process_getElem_mem ops segs acts f i h1 h2).mp hf with
      hbase | ⟨a, ha, hlen, _, hint⟩
    · exact Or.inl (List.ne_nil_of_mem hbase)
    · exact Or.inr ⟨a, ha, hlen, hint⟩
  · rintro (hbase | ⟨a, ha, hlen, hint⟩)
    · rcases List.exists_mem_of_ne_nil _ hbase with ⟨f, hf⟩
      exact List.ne_nil_of_mem
        ((process_getElem_mem ops segs acts f i h1 h2).mpr (Or.inl hf))
    · exact List.ne_nil_of_mem
        ((process_getElem_mem ops segs acts a.filename i h1 h2).mpr
          (Or.inr ⟨a, ha, hlen, rfl, hint⟩))

unseal Rat.mul Rat.inv Rat.add Rat.sub in
theorem c1_witness :
    ((process_activities iops [ex_seg] [ex_act]).get ⟨0, by decide⟩).is_completed = true ↔
      ((([ex_seg].get ⟨0, by decide⟩) :
          StreetSegment (Option (ℚ × ℚ))).is_completed = true ∨
        ∃ a ∈ [ex_act], 2 ≤ a.gps_points.length ∧
          iops.intersects
            (iops.buffer (iops.line_string (a.gps_points.map GPSPoint.coords))
              (buffer_distance / 111000))
            (([ex_seg].get ⟨0, by decide⟩).geometry) = true) :=
  c1_theorem iops [ex_seg] [ex_act] 0 (by decide) (by decide)

/-! ## Claim C2 -/

unseal Rat.mul Rat.inv Rat.add Rat.sub in
/-- Claim C2 as stated is false at a concrete input: the pair (c2_act, c2_seg)
is recorded in activities_covering although its computed coverage ratio is
1/200, at or below MIN_COVERAGE_THRESHOLD = 1/100; no threshold comparison
guards the recording. -/
theorem c2_counterexample :
    ¬ (∀ s ∈ process_activities iops [c2_seg] [c2_act], ∀ a ∈ [c2_act],
        a.filename ∈ s.activities_covering →
          min_coverage_threshold < spec_track_segment_ratio iops a s) := by
  decide

/-- Claim C2, amended: a filename is recorded as covering a segment if and
only if it was already recorded or it names a processed track with at least
2 GPS points whose buffered line intersects the segment's geometry;
MIN_COVERAGE_THRESHOLD is never consulted and no ratio is computed. -/
theorem c2_theorem {G : Type} (ops : GeoOps G) (segs : List (StreetSegment G))
    (acts : List Activity) (f : String) (i : ℕ) (h1 : i < segs.length)
    (h2 : i < (process_activities ops segs acts).length) :
    (f ∈ ((process_activities ops segs acts)[i]).activities_covering ↔
      f ∈ (segs[i]).activities_covering ∨
        ∃ a ∈ acts, 2 ≤ a.gps_points.length ∧ f = a.filename ∧
          ops.intersects
            (ops.buffer (ops.line_string (a.gps_points.map GPSPoint.coords))
              (buffer_distance / 111000)) ((segs[i]).geometry) = true) :=
  process_getElem_mem ops segs acts f i h1 h2

unseal Rat.mul Rat.inv Rat.add Rat.sub in
theorem c2_witness :
    (ex_act.filename ∈
        ((process_activities iops [ex_seg] [ex_act]).get ⟨0, by decide⟩).activities_covering ↔
      ex_act.filename ∈ (([ex_seg].get ⟨0, by decide⟩) :
          StreetSegment (Option (ℚ × ℚ))).activities_covering ∨
        ∃ a ∈ [ex_act], 2 ≤ a.gps_points.length ∧ ex_act.filename = a.filename ∧
          iops.intersects
            (iops.buffer (iops.line_string (a.gps_points.map GPSPoint.coords))
              (buffer_distance / 111000))
            (([ex_seg].get ⟨0, by decide⟩).geometry) = true) :=
  c2_theorem iops [ex_seg] [ex_act] ex_act.filename 0 (by decide) (by decide)

/-! ## Claim C3 -/

unseal Rat.mul Rat.inv Rat.add Rat.sub in
/-- Claim C3 as stated is false at a concrete input: on the zero-length
segment c3_zeroseg, which the (buffered) track c3_points passes over, both
ratio routines raise ZeroDivisionError instead of returning 0. -/
theorem c3_counterexample :
    calculate_coverage_ratio_with_line iops
        (iops.line_string (c3_points.map GPSPoint.coords)) c3_zeroseg =
      Except.error "ZeroDivisionError" ∧
    calculate_coverage_ratio iops c3_points c3_zeroseg =
      Except.error "ZeroDivisionError" :=
  ⟨rfl, rfl⟩

/-- Claim C3, amended: for a street segment of positive length the
coverage-ratio computation never raises and returns a ratio in [0,1],
granted the geometric facts the library guarantees (the intersection with
the segment is no longer than the segment, and lengths are nonnegative);
a zero-length segment touched by the buffered track instead raises
ZeroDivisionError, which only the wrapper converts to ratio 0. -/
theorem c3_theorem {G : Type} (ops : GeoOps G) (activity_line : G)
    (street_segment : StreetSegment G)
    (hpos : 0 < ops.length street_segment.geometry)
    (hnn : 0 ≤ ops.length (ops.intersection
      (ops.buffer activity_line (buffer_distance / 111000))
      street_segment.geometry))
    (hle : ops.length (ops.intersection
      (ops.buffer activity_line (buffer_distance / 111000))
      street_segment.geometry) ≤ ops.length street_segment.geometry) :
    ∃ r, calculate_coverage_ratio_with_line ops activity_line street_segment =
      Except.ok r ∧ 0 ≤ r ∧ r ≤ 1 := by
  unfold calculate_coverage_ratio_with_line
  cases hint : ops.intersects
      (ops.buffer activity_line (buffer_distance / 111000))
      street_segment.geometry with
  | false =>
    simp only [hint, Bool.not_false, if_true]
    exact ⟨0, rfl, le_refl 0, by norm_num⟩
  | true =>
    simp only [hint, Bool.not_true, Bool.false_eq_true, if_false]
    by_cases hemp : ops.is_empty (ops.intersection
        (ops.buffer activity_line (buffer_distance / 111000))
        street_segment.geometry) = true
    · simp only [hemp, if_true]
      exact ⟨0, rfl, le_refl 0, by norm_num⟩
    · simp only [hemp, if_false]
      rw [if_neg hpos.ne']
      exact ⟨_, rfl, div_nonneg hnn hpos.le, (div_le_one hpos).mpr hle⟩

unseal Rat.mul Rat.inv Rat.add Rat.sub in
theorem c3_witness :
    0 < iops.length c3_posseg.geometry ∧
    0 ≤ iops.length (iops.intersection
      (iops.buffer (iops.line_string (c3_points.map GPSPoint.coords))
        (buffer_distance / 111000)) c3_posseg.geometry) ∧
    iops.length (iops.intersection
      (iops.buffer (iops.line_string (c3_points.map GPSPoint.coords))
        (buffer_distance / 111000)) c3_posseg.geometry) ≤
      iops.length c3_posseg.geometry ∧
    ∃ r, calculate_coverage_ratio_with_line iops
        (iops.line_string (c3_points.map GPSPoint.coords)) c3_posseg =
      Except.ok r ∧ 0 ≤ r ∧ r ≤ 1 :=
  ⟨by decide, by decide, by decide,
    c3_theorem iops (iops.line_string (c3_points.map GPSPoint.coords)) c3_posseg
      (by decide) (by decide) (by decide)⟩

/-! ## Claim C4 -/

unseal Rat.mul Rat.inv Rat.add Rat.sub in
/-- Claim C4 as stated is false at a concrete input: the straight 250 m
street c4_street is split into two emitted segments of 125 m each, exceeding
MAX_SEGMENT_LENGTH = 100 (the piece count uses int(), i.e. floor, not ceil). -/
theorem c4_counterexample :
    ∃ s ∈ split_streets_into_segments min_segment_length max_segment_length
        [c4_street], max_segment_length < s.length * 111000 := by
  decide

/-- Claim C4, amended: every segment the segmenter emits arises from one of
the source streets, and the branch taken for that street fixes the bound:
if the street exceeded MAX_SEGMENT_LENGTH it was split and the emitted piece
has length at least MIN_SEGMENT_LENGTH (shorter pieces are dropped); otherwise
the street was kept whole and the emitted segment carries exactly the
street's length, which is at most MAX_SEGMENT_LENGTH (even when below MIN).
Split pieces can still exceed MAX_SEGMENT_LENGTH, as the counterexample
shows. -/
theorem c4_theorem (min_len max_len : ℚ) (streets : List RawStreet) :
    ∀ s ∈ split_streets_into_segments min_len max_len streets,
      ∃ street ∈ streets,
        ((street.geom_len * 111000 > max_len ∧
            min_len ≤ s.length * 111000) ∨
         (street.geom_len * 111000 ≤ max_len ∧
            s.length = street.geom_len ∧
            s.length * 111000 ≤ max_len)) := by
  intro s hs
  have hs' : s ∈ (streets.foldl (split_fold_step min_len max_len)
      (([], 0) : List SegmentRec × ℕ)).1 := hs
  rcases split_fold_mem min_len max_len streets ([], 0) s hs' with h | ⟨street, hstreet, sid, hmem⟩
  · simp at h
  refine ⟨street, hstreet, ?_⟩
  by_cases hb : street.geom_len * 111000 > max_len
  · simp only [split_street, if_pos hb] at hmem
    exact Or.inl ⟨hb, emit_pieces_mem_length _ _ _ _ s hmem⟩
  · simp only [split_street, if_neg hb] at hmem
    rcases List.mem_singleton.mp hmem with rfl
    exact Or.inr ⟨le_of_not_lt hb, rfl, le_of_not_lt hb⟩

unseal Rat.mul Rat.inv Rat.add Rat.sub in
theorem c4_witness :
    ∃ street ∈ [c4_street],
      ((street.geom_len * 111000 > max_segment_length ∧
          min_segment_length ≤ c4_piece.length * 111000) ∨
       (street.geom_len * 111000 ≤ max_segment_length ∧
          c4_piece.length = street.geom_len ∧
          c4_piece.length * 111000 ≤ max_segment_length)) :=
  c4_theorem min_segment_length max_segment_length [c4_street] c4_piece (by decide)

/-! ## Claim C5 -/

unseal Rat.mul Rat.inv Rat.add Rat.sub in
/-- Claim C5 as stated is false at a concrete input: the straight 150 m
street c5_street exceeds MAX_SEGMENT_LENGTH = 100, is split into two 75 m
pieces which are both dropped (75 < MIN_SEGMENT_LENGTH), so the emitted
lengths sum to 0, missing the original 150 m by more than one
MIN_SEGMENT_LENGTH. -/
theorem c5_counterexample :
    c5_street.geom_len * 111000 > max_segment_length ∧
    (split_street min_segment_length max_segment_length 0 c5_street).1 = [] ∧
    ¬ (|c5_street.geom_len * 111000 -
        (((split_street min_segment_length max_segment_length 0 c5_street).1.map
          (fun s => s.length * 111000)).sum)| ≤ min_segment_length) := by
  decide

/-- Claim C5, amended: for a straight street longer than MAX_SEGMENT_LENGTH,
if each of the max(2, floor(length/MAX)) equal pieces reaches
MIN_SEGMENT_LENGTH then the emitted segment lengths sum exactly to the
original street length (so in particular within one MIN_SEGMENT_LENGTH);
when the pieces fall below MIN_SEGMENT_LENGTH they are all dropped and the
whole street length is lost, as in the counterexample. -/
theorem c5_theorem (min_len max_len : ℚ) (sid : ℕ) (street : RawStreet)
    (hstraight : ∀ d, street.pointAt d = d)
    (hmax : 0 < max_len)
    (hlong : street.geom_len * 111000 > max_len)
    (hpiece : min_len ≤ street.geom_len * 111000 /
      ((max 2 (⌊street.geom_len * 111000 / max_len⌋.toNat) : ℕ) : ℚ)) :
    ((split_street min_len max_len sid street).1.map
      (fun s => s.length * 111000)).sum = street.geom_len * 111000 := by
  have hdeg := split_street_sum_straight min_len max_len sid street
    hstraight hmax hlong hpiece
  have hm : ((split_street min_len max_len sid street).1.map
      (fun s => s.length * 111000)).sum =
      ((split_street min_len max_len sid street).1.map
        (fun s => s.length)).sum * 111000 := List.sum_map_mul_right _ _ _
  rw [hm, hdeg]

unseal Rat.mul Rat.inv Rat.add Rat.sub in
theorem c5_witness :
    (∀ d, c4_street.pointAt d = d) ∧
    (0 : ℚ) < max_segment_length ∧
    c4_street.geom_len * 111000 > max_segment_length ∧
    min_segment_length ≤ c4_street.geom_len * 111000 /
      ((max 2 (⌊c4_street.geom_len * 111000 / max_segment_length⌋.toNat) : ℕ) : ℚ) ∧
    ((split_street min_segment_length max_segment_length 5 c4_street).1.map
      (fun s => s.length * 111000)).sum = c4_street.geom_len * 111000 :=
  ⟨fun d => rfl, by decide, by decide, by decide,
    c5_theorem min_segment_length max_segment_length 5 c4_street
      (fun d => rfl) (by decide) (by decide) (by decide)⟩

/-! ## Claim C6 -/

/-- Claim C6: an activity track with fewer than 2 GPS points contributes no
coverage observation to any segment — inserting it anywhere into the
processed batch leaves the entire final segment state unchanged. -/
theorem c6_theorem {G : Type} (ops : GeoOps G) (segs : List (StreetSegment G))
    (a : Activity) (pre suf : List Activity) (h : a.gps_points.length < 2) :
    process_activities ops segs (pre ++ a :: suf) =
      process_activities ops segs (pre ++ suf) := by
  unfold process_activities
  rw [List.foldl_append, List.foldl_append]
  show List.foldl (process_one_activity ops)
    (process_one_activity ops (List.foldl (process_one_activity ops) segs pre) a)
    suf = _
  rw [process_one_short ops _ a h]

unseal Rat.mul Rat.inv Rat.add Rat.sub in
theorem c6_witness :
    ex_act_short.gps_points.length < 2 ∧
    process_activities iops [ex_seg] ([] ++ ex_act_short :: [ex_act]) =
      process_activities iops [ex_seg] ([] ++ [ex_act]) :=
  ⟨by decide, c6_theorem iops [ex_seg] ex_act_short [] [ex_act] (by decide)⟩

/-! ## Claim C7 -/

/-- Claim C7: per-segment completion is monotonic within a run — processing
any further activity tracks never flips a segment from Completed to
Incomplete, never decreases its activity count, and never decreases its
recorded maximum coverage ratio (the ratio list is in fact unchanged). -/
theorem c7_theorem {G : Type} (ops : GeoOps G) (segs : List (StreetSegment G))
    (acts : List Activity) (i : ℕ) (h1 : i < segs.length)
    (h2 : i < (process_activities ops segs acts).length) :
    ((segs[i]).is_completed = true →
      ((process_activities ops segs acts)[i]).is_completed = true) ∧
    (segs[i]).activities_covering.length ≤
      ((process_activities ops segs acts)[i]).activities_covering.length ∧
    list_max ((segs[i]).coverage_ratios) ≤
      list_max (((process_activities ops segs acts)[i]).coverage_ratios) := by
  have hpre := process_getElem_grows ops segs acts i h1 h2
  refine ⟨?_, hpre.length_le, ?_⟩
  · intro hc
    rw [is_completed_iff] at hc ⊢
    intro hnil
    rw [hnil] at hpre
    exact hc (List.prefix_nil.mp hpre)
  · rw [process_getElem_ratios ops segs acts i h1 h2]

unseal Rat.mul Rat.inv Rat.add Rat.sub in
theorem c7_witness :
    ((([ex_seg].get ⟨0, by decide⟩) :
        StreetSegment (Option (ℚ × ℚ))).is_completed = true →
      ((process_activities iops [ex_seg] [ex_act]).get
        ⟨0, by decide⟩).is_completed = true) ∧
    ([ex_seg].get ⟨0, by decide⟩).activities_covering.length ≤
      ((process_activities iops [ex_seg] [ex_act]).get
        ⟨0, by decide⟩).activities_covering.length ∧
    list_max (([ex_seg].get ⟨0, by decide⟩).coverage_ratios) ≤
      list_max (((process_activities iops [ex_seg] [ex_act]).get
        ⟨0, by decide⟩).coverage_ratios) :=
  c7_theorem iops [ex_seg] [ex_act] 0 (by decide) (by decide)

/-! ## Claim C8 -/

/-- Claim C8 as stated is false at a concrete input: the per-segment record
produced for the downstream renderer contains no max_ratio field. -/
theorem c8_counterexample :
    ¬ ("max_ratio" ∈ (ex_seg.completion_metadata.map Prod.fst)) := by
  decide

/-- Claim C8, amended: for every segment, the per-segment record produced for
the downstream renderer contains exactly the fields segment_id, is_completed
and activity_count; the max_ratio field of the claim is absent. -/
theorem c8_theorem {G : Type} (s : StreetSegment G) :
    (s.completion_metadata.map Prod.fst) =
      ["segment_id", "is_completed", "activity_count"] ∧
    "max_ratio" ∉ s.completion_metadata.map Prod.fst := by
  refine ⟨rfl, ?_⟩
  simp [StreetSegment.completion_metadata]

theorem c8_witness :
    ((ex_seg.completion_metadata.map Prod.fst) =
      ["segment_id", "is_completed", "activity_count"] ∧
    "max_ratio" ∉ ex_seg.completion_metadata.map Prod.fst) :=
  c8_theorem ex_seg

/-! ## Claim C9 -/

/-- Claim C9: a file whose parse raises is recorded (its filename joins the
error log) and skipped, and the remaining files of the batch are loaded
exactly as if the malformed file were absent: same activities and counters. -/
theorem c9_theorem (cb : Option CityBounds) (st : LoadState)
    (pre suf : List GpxFile) (bad : GpxFile) (e : String)
    (he : bad.parse = Except.error e) :
    (load_gpx_directory cb (pre ++ bad :: suf) st).activities =
      (load_gpx_directory cb (pre ++ suf) st).activities ∧
    bad.filename ∈ (load_gpx_directory cb (pre ++ bad :: suf) st).errors ∧
    (load_gpx_directory cb (pre ++ bad :: suf) st).total_activities =
      (load_gpx_directory cb (pre ++ suf) st).total_activities ∧
    (load_gpx_directory cb (pre ++ bad :: suf) st).local_activities =
      (load_gpx_directory cb (pre ++ suf) st).local_activities := by
  have hsplit : load_gpx_directory cb (pre ++ bad :: suf) st =
      load_gpx_directory cb suf
        (load_gpx_one cb (load_gpx_directory cb pre st) bad) := by
    unfold load_gpx_directory
    rw [List.foldl_append]
    rfl
  have hsplit2 : load_gpx_directory cb (pre ++ suf) st =
      load_gpx_directory cb suf (load_gpx_directory cb pre st) := by
    unfold load_gpx_directory
    rw [List.foldl_append]
  have herr : load_gpx_one cb (load_gpx_directory cb pre st) bad =
      { load_gpx_directory cb pre st with
        errors := (load_gpx_directory cb pre st).errors ++ [bad.filename] } :=
    load_gpx_one_error cb _ bad e he
  have hproj := load_gpx_directory_proj cb suf
    { load_gpx_directory cb pre st with
      errors := (load_gpx_directory cb pre st).errors ++ [bad.filename] }
    (load_gpx_directory cb pre st) rfl rfl rfl
  refine ⟨?_, ?_, ?_, ?_⟩
  · rw [hsplit, hsplit2, herr]
    exact hproj.1
  · rw [hsplit, herr]
    refine (load_gpx_directory_errors_grow cb suf _).subset ?_
    simp
  · rw [hsplit, hsplit2, herr]
    exact hproj.2.1
  · rw [hsplit, hsplit2, herr]
    exact hproj.2.2

unseal Rat.mul Rat.inv Rat.add Rat.sub in
theorem c9_witness :
    ex_bad.parse = Except.error "malformed XML" ∧
    ((load_gpx_directory none ([ex_good1] ++ ex_bad :: [ex_good2])
        ex_init_state).activities =
      (load_gpx_directory none ([ex_good1] ++ [ex_good2])
        ex_init_state).activities ∧
    ex_bad.filename ∈ (load_gpx_directory none ([ex_good1] ++ ex_bad :: [ex_good2])
        ex_init_state).errors ∧
    (load_gpx_directory none ([ex_good1] ++ ex_bad :: [ex_good2])
        ex_init_state).total_activities =
      (load_gpx_directory none ([ex_good1] ++ [ex_good2])
        ex_init_state).total_activities ∧
    (load_gpx_directory none ([ex_good1] ++ ex_bad :: [ex_good2])
        ex_init_state).local_activities =
      (load_gpx_directory none ([ex_good1] ++ [ex_good2])
        ex_init_state).local_activities) :=
  ⟨rfl, c9_theorem none ex_init_state [ex_good1] [ex_good2] ex_bad
    "malformed XML" rfl⟩

/-! ## Claim C10 -/

/-- Claim C10: process_activities never appends to any segment's
coverage_ratios list — starting from the freshly created segment objects,
after processing any activities every coverage_ratios list is still empty,
and therefore the ratio distribution computed by export_statistics is the
empty list. -/
theorem c10_theorem (ops : GeoOps (Option (ℚ × ℚ))) (recs : List SegmentRec)
    (acts : List Activity) :
    (∀ s ∈ process_activities ops (mk_street_segment_objects recs) acts,
      s.coverage_ratios = []) ∧
    coverage_ratio_distribution
      (process_activities ops (mk_street_segment_objects recs) acts) = [] := by
  have hall : ∀ s ∈ process_activities ops (mk_street_segment_objects recs) acts,
      s.coverage_ratios = [] := by
    intro s hs
    rcases process_mem_ratios ops _ acts s hs with ⟨t, ht, heq⟩
    rcases List.mem_map.mp ht with ⟨r, _, rfl⟩
    exact heq
  refine ⟨hall, ?_⟩
  unfold coverage_ratio_distribution
  rw [List.filterMap_eq_nil_iff]
  intro s hs
  have hnil : s.coverage_ratios = [] := hall s (List.mem_of_mem_filter hs)
  simp [hnil]

unseal Rat.mul Rat.inv Rat.add Rat.sub in
theorem c10_witness :
    coverage_ratio_distribution
      (process_activities iops (mk_street_segment_objects [ex_rec]) [ex_act]) = [] :=
  (c10_theorem iops [ex_rec] [ex_act]).2
